import Mathlib

/-
Verification development for the Caproni/Reporting repository.

The core under study is `LogScraper.scrape_log` in `src/utils/logger.py`,
together with the tag utilities `process_tag` / `get_data_from_tag` and the
helper `LogScraper.delete_log`.  Strings are embedded as `List Char`
(`String.data`); Python regular-expression searches, `str.replace`,
`str.strip`, `str.split` and `int()` are embedded as executable functions
below, each faithful to the Python semantics on the character sets that can
actually occur.  Uncaught Python exceptions are embedded as the error side of
an `Except`.
-/

deriving instance DecidableEq for Except

/-- Character range test by code point, used to embed regex character
classes such as `[0-9]` or `[A-Z]`. -/
def inRange (lo hi c : Char) : Bool :=
  lo.toNat ≤ c.toNat && c.toNat ≤ hi.toNat

/-- Embedding of the regex class `[0-9]`. -/
def isDigitC (c : Char) : Bool := inRange '0' '9' c

/-- Embedding of the regex class `[A-Z]` (log-level characters). -/
def isUpperC (c : Char) : Bool := inRange 'A' 'Z' c

/-- Embedding of the regex class `[a-zA-Z0-9_.:]` from
`FILENAME_LINE_NUMBER_REGEX`. -/
def isFileChar (c : Char) : Bool :=
  inRange 'a' 'z' c || inRange 'A' 'Z' c || isDigitC c ||
    c == '_' || c == '.' || c == ':'

/-- Embedding of Python whitespace as removed by `str.strip()`. -/
def isPySpace (c : Char) : Bool :=
  c == ' ' || c == '\t' || c == '\n' || c == '\x0d' || c == '\x0b' || c == '\x0c'

/-- Embedding of Python `str.strip()`: drop leading and trailing
whitespace. -/
def strip (s : List Char) : List Char :=
  ((s.dropWhile isPySpace).reverse.dropWhile isPySpace).reverse

/-- Does `pat` occur at the very front of `s`?  (Helper for the embedding of
Python `str.replace`.) -/
def leadsWith : List Char → List Char → Bool
  | [], _ => true
  | _ :: _, [] => false
  | p :: ps, c :: cs => p == c && leadsWith ps cs

/-- Fuel-indexed worker for the embedding of Python `s.replace(pat, "")`:
the fuel only bounds the recursion depth and is always at least the length
of the scanned text, so it never runs out. -/
def removeAllAux : Nat → List Char → List Char → List Char
  | 0, _, s => s
  | _ + 1, _, [] => []
  | fuel + 1, pat, c :: rest =>
    if 0 < pat.length && leadsWith pat (c :: rest) then
      removeAllAux fuel pat ((c :: rest).drop pat.length)
    else
      c :: removeAllAux fuel pat rest

/-- Embedding of Python `s.replace(pat, "")`: remove every left-to-right,
non-overlapping occurrence of `pat` from `s`. -/
def removeAll (pat : List Char) (s : List Char) : List Char :=
  removeAllAux s.length pat s

/-- Embedding of the 22 characters of `TIMESTAMP_REGEX` that follow the
leading literal `2`:
`[0-9]{3}-[0-1][0-9]-[0-3][0-9] [0-2][0-9]:[0-5][0-9]:[0-5][0-9].[0-9]{3}`.
Note that the `.` in the source pattern is an unescaped regex dot and hence
matches any character. -/
def tsBody : List Char → Bool
  | y1 :: y2 :: y3 :: da :: mo1 :: mo2 :: db :: d1 :: d2 :: sp :: h1 :: h2 ::
      ca :: mi1 :: mi2 :: cb :: s1 :: s2 :: _ :: f1 :: f2 :: f3 :: _ =>
    isDigitC y1 && isDigitC y2 && isDigitC y3 && da == '-' &&
    inRange '0' '1' mo1 && isDigitC mo2 && db == '-' &&
    inRange '0' '3' d1 && isDigitC d2 && sp == ' ' &&
    inRange '0' '2' h1 && isDigitC h2 && ca == ':' &&
    inRange '0' '5' mi1 && isDigitC mi2 && cb == ':' &&
    inRange '0' '5' s1 && isDigitC s2 &&
    isDigitC f1 && isDigitC f2 && isDigitC f3
  | _ => false

/-- Does `TIMESTAMP_REGEX` match at the front of `s`?  The source pattern
begins with the literal `2` (`2[0-9]{3}-...`). -/
def tsCheck : List Char → Bool
  | c :: rest => c == '2' && tsBody rest
  | [] => false

/-- Embedding of `re.search(TIMESTAMP_REGEX, s)`: leftmost match, returned
as the 23-character matched substring. -/
def tsSearch : List Char → Option (List Char)
  | [] => none
  | c :: rest =>
    if tsCheck (c :: rest) then some ((c :: rest).take 23)
    else tsSearch rest

/-- Embedding of `re.search(LOG_LEVEL_REGEX, s)` with
`LOG_LEVEL_REGEX = [A-Z]{4,}`: leftmost starting position, greedy run. -/
def lvlSearch : List Char → Option (List Char)
  | [] => none
  | c :: rest =>
    let run := (c :: rest).takeWhile isUpperC
    if 4 ≤ run.length then some run else lvlSearch rest

/-- Embedding of `re.match(FILENAME_LINE_NUMBER_REGEX, s)` with pattern
`\[([a-zA-Z0-9_.:]+)]`, anchored at the start of `s`.  Returns
`(whole match, captured group)`.  Since `]` is not in the inner class, the
greedy `+` needs no backtracking: the match succeeds exactly when the
maximal run of class characters after `[` is non-empty and is followed by
`]`. -/
def fileMatch (s : List Char) : Option (List Char × List Char) :=
  match s with
  | '[' :: rest =>
    match rest.takeWhile isFileChar, rest.dropWhile isFileChar with
    | i :: inner, ']' :: _ => some (('[' :: (i :: inner)) ++ [']'], i :: inner)
    | _, _ => none
  | _ => none

/-- Embedding of Python `s.split(":")`. -/
def splitColon : List Char → List (List Char)
  | [] => [[]]
  | c :: rest =>
    if c == ':' then [] :: splitColon rest
    else
      match splitColon rest with
      | [] => [[c]]
      | p :: ps => (c :: p) :: ps

/-- Tail of the validity check for Python `int(s)` on the character set
`[a-zA-Z0-9_.]`: after a leading digit, the rest must be digits with single
interior underscores (`\d(_?\d)*`). -/
def pyIntScan : List Char → Bool
  | [] => true
  | '_' :: c :: rest => isDigitC c && pyIntScan rest
  | ['_'] => false
  | c :: rest => isDigitC c && pyIntScan rest

/-- Numeric value of a digit character. -/
def digitVal (c : Char) : Nat := c.toNat - 48

/-- Decimal value of a list of digit characters. -/
def natOfDigits (s : List Char) : Nat :=
  s.foldl (fun n c => 10 * n + digitVal c) 0

/-- Embedding of Python `int(s)` for the characters that can reach it here
(letters, digits, `_`, `.`): `none` embeds the uncaught `ValueError`,
`some n` the parsed value.  Python accepts single interior underscores
between digits (`int("4_2") = 42`). -/
def pyInt (s : List Char) : Option Nat :=
  match s with
  | [] => none
  | c :: rest =>
    if isDigitC c && pyIntScan rest then some (natOfDigits (s.filter isDigitC))
    else none

/-- A parsed date-time value, the embedding of the `datetime` produced by
`datetime.fromisoformat`. -/
structure Timestamp where
  year : Nat
  month : Nat
  day : Nat
  hour : Nat
  minute : Nat
  second : Nat
  millisecond : Nat
deriving DecidableEq

/-- Decode the 23 characters of a `TIMESTAMP_REGEX` match into numeric
fields plus the character sitting in the fractional-separator position. -/
def tsFields (s : List Char) :
    Option (Nat × Nat × Nat × Nat × Nat × Nat × Nat × Char) :=
  match s with
  | [y0, y1, y2, y3, _, mo1, mo2, _, d1, d2, _, h1, h2, _, mi1, mi2, _,
      s1, s2, sep, f1, f2, f3] =>
    some (1000 * digitVal y0 + 100 * digitVal y1 + 10 * digitVal y2 + digitVal y3,
      10 * digitVal mo1 + digitVal mo2,
      10 * digitVal d1 + digitVal d2,
      10 * digitVal h1 + digitVal h2,
      10 * digitVal mi1 + digitVal mi2,
      10 * digitVal s1 + digitVal s2,
      100 * digitVal f1 + 10 * digitVal f2 + digitVal f3,
      sep)
  | _ => none

/-- Gregorian leap-year rule, as used by Python's `datetime`. -/
def leapYear (y : Nat) : Bool :=
  (y % 4 == 0 && y % 100 != 0) || y % 400 == 0

/-- Days in a month, as validated by Python's `datetime`. -/
def daysInMonth (y m : Nat) : Nat :=
  if m == 2 then (if leapYear y then 29 else 28)
  else if m == 4 || m == 6 || m == 9 || m == 11 then 30
  else 31

/-- Does `datetime.fromisoformat` accept the matched substring?  The regex
already pins minutes and seconds to `00`–`59`; `fromisoformat` additionally
requires a real calendar date, an hour below 24, and a literal `.` in the
fractional-separator position (where the regex accepts any character). -/
def isoValid (s : List Char) : Bool :=
  match tsFields s with
  | some (y, mo, d, h, _, _, _, sep) =>
    sep == '.' && decide (1 ≤ mo) && decide (mo ≤ 12) && decide (1 ≤ d) &&
      decide (d ≤ daysInMonth y mo) && decide (h ≤ 23)
  | none => false

/-- The date-time value produced by `datetime.fromisoformat` on a valid
`TIMESTAMP_REGEX` match. -/
def parseTs (s : List Char) : Timestamp :=
  match tsFields s with
  | some (y, mo, d, h, mi, se, ms, _) => ⟨y, mo, d, h, mi, se, ms⟩
  | none => ⟨0, 0, 0, 0, 0, 0, 0⟩

/-- One parsed log record, the embedding of the dict appended by
`scrape_log` (keys `log_date`, `log_level`, `log_filename`,
`log_line_number`, `content`, `traceback`). -/
structure LogEntry where
  log_date : Option Timestamp
  log_level : Option (List Char)
  log_filename : Option (List Char)
  log_line_number : Nat
  content : List Char
  traceback : List (List Char)
deriving DecidableEq

/-- The uncaught Python exceptions that `scrape_log` can raise, by source
site: `indexError` is the `IndexError` from `parsed_log_entries[-1]` on an
empty list; `timestampParseError s` is the `ValueError` raised by
`datetime.fromisoformat` ("Invalid isoformat string: s"); `unpackError` is
the `ValueError` from unpacking `split(":")` into two variables;
`intParseError` is the `ValueError` from `int()` on a non-numeric line
number. -/
inductive ScrapeError where
  | indexError
  | timestampParseError (text : List Char)
  | unpackError
  | intParseError
deriving DecidableEq

/-- Embedding of `parsed_log_entries[-1]["traceback"].append(line)`:
append `line` to the traceback of the last entry. -/
def appendTraceback : List LogEntry → List Char → List LogEntry
  | [], _ => []
  | [e], l => [{ e with traceback := e.traceback ++ [l] }]
  | e :: rest, l => e :: appendTraceback rest l

/-- Working text after the timestamp step:
`log_content.replace(match, "").strip()`. -/
def afterTimestamp (m line : List Char) : List Char :=
  strip (removeAll m line)

/-- The level-extraction step: search for `[A-Z]{4,}` and, if found, remove
every occurrence of the matched token and strip.  Returns
`(log_level, remaining text)`. -/
def levelStage (t : List Char) : Option (List Char) × List Char :=
  match lvlSearch t with
  | none => (none, t)
  | some l => (some l, strip (removeAll l t))

/-- Process one raw log line against the entries accumulated so far: the
body of the `for log_content in log_lines` loop of `scrape_log`. -/
def processLine (entries : List LogEntry) (line : List Char) :
    Except ScrapeError (List LogEntry) :=
  match tsSearch line with
  | none =>
    match entries with
    | [] => .error .indexError
    | _ :: _ => .ok (appendTraceback entries line)
  | some m =>
    if isoValid m then
      let lv := levelStage (afterTimestamp m line)
      match fileMatch lv.2 with
      | none => .ok (entries ++ [⟨some (parseTs m), lv.1, none, 0, lv.2, []⟩])
      | some (whole, inner) =>
        match splitColon inner with
        | [fn, num] =>
          match (if num = [] then some 0 else pyInt num) with
          | some k =>
            .ok (entries ++ [⟨some (parseTs m), lv.1, some fn, k,
              strip (removeAll whole lv.2), []⟩])
          | none => .error .intParseError
        | _ => .error .unpackError
    else .error (.timestampParseError m)

/-- Fold `processLine` over the remaining lines, starting from the entries
accumulated so far. -/
def scrapeGo (acc : List LogEntry) :
    List (List Char) → Except ScrapeError (List LogEntry)
  | [] => .ok acc
  | l :: rest =>
    match processLine acc l with
    | .ok acc2 => scrapeGo acc2 rest
    | .error e => .error e

/-- Embedding of `LogScraper.scrape_log`, with the file already read into a
list of lines (the line source is the out-of-scope collaborator). -/
def scrape_log (lines : List String) : Except ScrapeError (List LogEntry) :=
  scrapeGo [] (lines.map String.data)

/-- Embedding of `get_data_from_tag` from `src/tags/get_data_from_tag.py`:
the body ignores the tag and returns the `data` argument unchanged. -/
def get_data_from_tag (tag : String) (data : List (String × String)) :
    List (String × String) :=
  data

/-- Is there a `]]` somewhere in the text?  (Helper for the tag-marker
search.) -/
def hasCloseMarker : List Char → Bool
  | ']' :: ']' :: _ => true
  | _ :: rest => hasCloseMarker rest
  | [] => false

/-- Does `re.search(r"\[\[(.*?)\]\]", s)` find a match: an occurrence of
`[[` with a later `]]`. -/
def hasTagMarker : List Char → Bool
  | '[' :: '[' :: rest => hasCloseMarker rest
  | _ :: rest => hasTagMarker rest
  | [] => false

/-- Result of `process_tag`: on a marker-free tag the Python function
returns `get_data_from_tag(tag, data)`, i.e. the whole `data` value; on a
tag containing a `[[...]]` marker the `while` loop recurses on the matched
marker `inner_tag`, which still contains the marker, so the recursion never
terminates (`diverges` embeds that unbounded recursion). -/
inductive TagResult where
  | dataResult (d : List (String × String))
  | diverges
deriving DecidableEq

/-- Embedding of `process_tag` from `src/tags/process_tag.py`. -/
def process_tag (tag : String) (data : List (String × String)) : TagResult :=
  if hasTagMarker tag.data then .diverges
  else .dataResult (get_data_from_tag tag data)

/-- Embedding of the `LogScraper` instance state: the only attribute set by
`__init__` is `log_file_path`; `none` embeds the attribute having been
removed by `del`. -/
structure LogScraper where
  log_file_path : Option String
deriving DecidableEq

/-- Embedding of `LogScraper.delete_log` with an explicit filesystem (a
path-to-contents map) threaded through to expose the frame: the body only
executes `del self.log_file_path` (the `logger.info` calls write to the
logging sink, which the spec places out of scope); no filesystem operation
occurs. -/
def delete_log (s : LogScraper) (fs : List (String × String)) :
    LogScraper × List (String × String) :=
  ({ log_file_path := none }, fs)

theorem appendTraceback_concat (es : List LogEntry) (e : LogEntry) (l : List Char) :
    appendTraceback (es ++ [e]) l =
      es ++ [{ e with traceback := e.traceback ++ [l] }] := by
  induction es with
  | nil => rfl
  | cons a as ih =>
    cases as with
    | nil => rfl
    | cons b bs =>
      have hstep : appendTraceback ((a :: b :: bs) ++ [e]) l =
          a :: appendTraceback ((b :: bs) ++ [e]) l := rfl
      rw [hstep, ih]
      rfl

theorem scrapeGo_append (xs : List (List Char)) (acc : List LogEntry)
    (ys : List (List Char)) :
    scrapeGo acc (xs ++ ys) = (scrapeGo acc xs).bind fun a => scrapeGo a ys := by
  induction xs generalizing acc with
  | nil => rfl
  | cons l rest ih =>
    cases h : processLine acc l with
    | ok a2 => simp [scrapeGo, h, ih, Except.bind]
    | error e => simp [scrapeGo, h, Except.bind]

theorem processLine_continuation (es : List LogEntry) (e : LogEntry) (l : List Char)
    (h : tsSearch l = none) :
    processLine (es ++ [e]) l =
      .ok (es ++ [{ e with traceback := e.traceback ++ [l] }]) := by
  unfold processLine
  rw [h]
  cases es with
  | nil => rfl
  | cons a as => simpa using appendTraceback_concat (a :: as) e l

/-- Claim C1: on the single input line
`"2024-01-15 10:30:00.123 INFO [app.py:42] Started service"`, `scrape_log`
produces exactly one entry with timestamp 2024-01-15T10:30:00.123, level
`INFO`, source file `app.py`, source line 42, content `Started service` and
an empty traceback. -/
theorem round_trip_minimal_line :
    scrape_log ["2024-01-15 10:30:00.123 INFO [app.py:42] Started service"] =
      .ok [⟨some ⟨2024, 1, 15, 10, 30, 0, 123⟩, some ("INFO".data),
        some ("app.py".data), 42, "Started service".data, []⟩] := by
  decide

/-- Claim C2: on an input whose first line contains no timestamp match, the
code as written does not raise a structured `MalformedLogSequence` error;
it evaluates `parsed_log_entries[-1]` on the empty result list and faults
with an unchecked `IndexError` (embedded as `ScrapeError.indexError`),
producing no entry.  This records the code's actual behaviour at the
failing input of the claim. -/
theorem continuation_first_line_unchecked_fault :
    scrape_log ["Traceback (most recent call last):"] = .error .indexError := by
  decide

/-- Claim C3: whenever a successfully scraped prefix has produced at least
one entry and the next line has no timestamp match, `scrape_log` folds that
line into the traceback of the last entry produced so far, leaves every
earlier entry unchanged, creates no separate entry for the line, and
continues scraping the remaining lines from that state. -/
theorem scrape_continuation_to_last (pre : List String) (line : String)
    (rest : List String) (es : List LogEntry) (e : LogEntry)
    (h1 : scrape_log pre = .ok (es ++ [e]))
    (h2 : tsSearch line.data = none) :
    scrape_log (pre ++ line :: rest) =
      scrapeGo (es ++ [{ e with traceback := e.traceback ++ [line.data] }])
        (rest.map String.data) := by
  unfold scrape_log at h1 ⊢
  rw [List.map_append, scrapeGo_append, h1]
  simp [Except.bind, scrapeGo, processLine_continuation _ _ _ h2]

/-- Witness for C3 at a concrete input: one valid entry line followed by a
bare continuation line. -/
theorem scrape_continuation_to_last_witness :
    scrape_log ["2024-01-15 10:30:00.123 INFO [app.py:42] Started service",
        "boom at line 3"] =
      .ok [⟨some ⟨2024, 1, 15, 10, 30, 0, 123⟩, some ("INFO".data),
        some ("app.py".data), 42, "Started service".data,
        ["boom at line 3".data]⟩] := by
  exact scrape_continuation_to_last
    ["2024-01-15 10:30:00.123 INFO [app.py:42] Started service"]
    "boom at line 3" [] []
    ⟨some ⟨2024, 1, 15, 10, 30, 0, 123⟩, some ("INFO".data),
      some ("app.py".data), 42, "Started service".data, []⟩
    (by decide) (by decide)

/-- Claim C4: whenever a successfully scraped prefix is followed by a line
whose leftmost `TIMESTAMP_REGEX` match `m` is not a valid date-time,
`scrape_log` fails with the `fromisoformat` parse error naming the
offending substring `m`, and no entry for that line (or any later line) is
added to the output. -/
theorem scrape_bad_timestamp (pre : List String) (es : List LogEntry)
    (line : String) (rest : List String) (m : List Char)
    (h1 : scrape_log pre = .ok es)
    (h2 : tsSearch line.data = some m)
    (h3 : isoValid m = false) :
    scrape_log (pre ++ line :: rest) = .error (.timestampParseError m) := by
  unfold scrape_log at h1 ⊢
  rw [List.map_append, scrapeGo_append, h1]
  simp [Except.bind, scrapeGo, processLine, h2, h3]

/-- Witness for C4: a timestamp with month 13 matches the pattern but is
not a valid calendar date. -/
theorem scrape_bad_timestamp_witness :
    scrape_log ["2024-13-15 10:30:00.123 INFO bad"] =
      .error (.timestampParseError ("2024-13-15 10:30:00.123".data)) := by
  exact scrape_bad_timestamp [] [] "2024-13-15 10:30:00.123 INFO bad" []
    ("2024-13-15 10:30:00.123".data) (by decide) (by decide) (by decide)

/-- Claim C5, counterexample: the extraction steps do not remove only the
leftmost matched substring.  On the line
`"2024-01-15 10:30:00.123 INFO [a.py:1] INFO again"` the level step
matches the leftmost `INFO` but `str.replace` deletes the second
occurrence too, so the residual content is `"again"` rather than the
`"INFO again"` the claim requires. -/
theorem repeated_level_token_dropped :
    scrape_log ["2024-01-15 10:30:00.123 INFO [a.py:1] INFO again"] =
      .ok [⟨some ⟨2024, 1, 15, 10, 30, 0, 123⟩, some ("INFO".data),
        some ("a.py".data), 1, "again".data, []⟩] ∧
    "again".data ≠ "INFO again".data := by
  exact ⟨by decide, by decide⟩

/-- Claim C5 as amended: each extraction step searches for the leftmost
match but then removes every left-to-right occurrence of that matched
substring from the working text (Python `str.replace`), so a later
occurrence of the same substring does not survive into the residual
content.  Shown for each of the three steps: a repeated timestamp, a
repeated level token, and a repeated file/line marker are all removed. -/
theorem matched_substring_removed_globally :
    scrape_log ["2024-01-15 10:30:00.123 ERROR x 2024-01-15 10:30:00.123 y"] =
      .ok [⟨some ⟨2024, 1, 15, 10, 30, 0, 123⟩, some ("ERROR".data), none, 0,
        "x  y".data, []⟩] ∧
    scrape_log ["2024-01-15 10:30:00.123 INFO INFO again"] =
      .ok [⟨some ⟨2024, 1, 15, 10, 30, 0, 123⟩, some ("INFO".data), none, 0,
        "again".data, []⟩] ∧
    scrape_log ["2024-01-15 10:30:00.123 INFO [a.py:1] x [a.py:1]"] =
      .ok [⟨some ⟨2024, 1, 15, 10, 30, 0, 123⟩, some ("INFO".data),
        some ("a.py".data), 1, "x".data, []⟩] := by
  exact ⟨by decide, by decide, by decide⟩

theorem splitColon_no_colon (l : List Char) (h : l.count ':' = 0) :
    splitColon l = [l] := by
  induction l with
  | nil => rfl
  | cons c rest ih =>
    by_cases hc : c = ':'
    · subst hc
      simp [List.count_cons] at h
    · have h1 : rest.count ':' = 0 := by
        rw [List.count_cons] at h
        omega
      simp [splitColon, hc, ih h1]

theorem splitColon_single (fn num : List Char) (hfn : fn.count ':' = 0)
    (hnum : num.count ':' = 0) :
    splitColon (fn ++ ':' :: num) = [fn, num] := by
  induction fn with
  | nil => simp [splitColon, splitColon_no_colon num hnum]
  | cons c fs ih =>
    have hc : c ≠ ':' := by
      intro hcc
      subst hcc
      simp [List.count_cons] at hfn
    have hfs : fs.count ':' = 0 := by
      rw [List.count_cons] at hfn
      omega
    simp [splitColon, hc, ih hfs]

theorem splitColon_ne_nil (l : List Char) : splitColon l ≠ [] := by
  cases l with
  | nil => simp [splitColon]
  | cons c rest =>
    simp only [splitColon]
    split
    · simp
    · cases h : splitColon rest <;> simp

theorem splitColon_length (l : List Char) :
    (splitColon l).length = l.count ':' + 1 := by
  induction l with
  | nil => simp [splitColon]
  | cons c rest ih =>
    by_cases hc : c = ':'
    · subst hc
      simp [splitColon, List.count_cons, ih]
    · cases h : splitColon rest with
      | nil => exact absurd h (splitColon_ne_nil rest)
      | cons p ps =>
        rw [h] at ih
        simp [splitColon, hc, h, List.count_cons]
        simp at ih
        omega

/-- Claim C6: on a new-entry line whose post-level text starts with a
bracketed token whose captured group is `fn ++ ":" ++ num` with `fn` and
`num` colon-free, the file/line extraction yields `log_filename = fn` and
parses `num` as the line number, an empty `num` yielding line number 0. -/
theorem file_line_first_colon (es : List LogEntry)
    (line m fn num whole : List Char) (k : Nat)
    (hts : tsSearch line = some m) (hiso : isoValid m = true)
    (hfm : fileMatch (levelStage (afterTimestamp m line)).2 =
      some (whole, fn ++ ':' :: num))
    (hfn : fn.count ':' = 0) (hnum : num.count ':' = 0)
    (hk : num ≠ [] → pyInt num = some k) :
    processLine es line = .ok (es ++ [⟨some (parseTs m),
      (levelStage (afterTimestamp m line)).1, some fn,
      (if num = [] then 0 else k),
      strip (removeAll whole (levelStage (afterTimestamp m line)).2), []⟩]) := by
  unfold processLine
  rw [hts]
  simp only [hiso, if_true]
  rw [hfm]
  simp only [splitColon_single fn num hfn hnum]
  cases num with
  | nil => simp
  | cons c cs => simp [hk (by simp)]

/-- Witness for C6: a token with an empty line-number substring gives line
number 0. -/
theorem file_line_first_colon_witness :
    processLine [] ("2024-01-15 10:30:00.123 INFO [app.py:] go".data) =
      .ok [⟨some ⟨2024, 1, 15, 10, 30, 0, 123⟩, some ("INFO".data),
        some ("app.py".data), 0, "go".data, []⟩] := by
  exact file_line_first_colon [] ("2024-01-15 10:30:00.123 INFO [app.py:] go".data)
    ("2024-01-15 10:30:00.123".data) ("app.py".data) [] ("[app.py:]".data) 0
    (by decide) (by decide) (by decide) (by decide) (by decide)
    (fun h => absurd rfl h)

theorem processLine_unpack (es : List LogEntry) (line m whole inner : List Char)
    (hts : tsSearch line = some m) (hiso : isoValid m = true)
    (hfm : fileMatch (levelStage (afterTimestamp m line)).2 = some (whole, inner))
    (hc : inner.count ':' ≠ 1) :
    processLine es line = .error .unpackError := by
  unfold processLine
  rw [hts]
  simp only [hiso, if_true]
  rw [hfm]
  have hlen := splitColon_length inner
  rcases hsc : splitColon inner with _ | ⟨a, _ | ⟨b, _ | ⟨c, l⟩⟩⟩
  · exact absurd hsc (splitColon_ne_nil inner)
  · simp [hsc]
  · rw [hsc] at hlen
    simp at hlen
    omega
  · simp [hsc]

/-- Claim C9: whenever a successfully scraped prefix is followed by a
new-entry line whose bracketed file/line token contains a number of colons
different from exactly one, `scrape_log` fails with the unchecked
`ValueError` raised by unpacking the colon-split into two variables, and
produces no entry for that line. -/
theorem scrape_colon_unpack_error (pre : List String) (es : List LogEntry)
    (line : String) (rest : List String) (m whole inner : List Char)
    (h1 : scrape_log pre = .ok es)
    (hts : tsSearch line.data = some m) (hiso : isoValid m = true)
    (hfm : fileMatch (levelStage (afterTimestamp m line.data)).2 =
      some (whole, inner))
    (hc : inner.count ':' ≠ 1) :
    scrape_log (pre ++ line :: rest) = .error .unpackError := by
  unfold scrape_log at h1 ⊢
  rw [List.map_append, scrapeGo_append, h1]
  simp [Except.bind, scrapeGo, processLine_unpack es line.data m whole inner hts hiso hfm hc]

/-- Witness for C9: a bracketed token with no colon at all. -/
theorem scrape_colon_unpack_error_witness :
    scrape_log ["2024-01-15 10:30:00.123 INFO [appfile] x"] =
      .error .unpackError := by
  exact scrape_colon_unpack_error [] [] "2024-01-15 10:30:00.123 INFO [appfile] x"
    [] ("2024-01-15 10:30:00.123".data) ("[appfile]".data) ("appfile".data)
    (by decide) (by decide) (by decide) (by decide) (by decide)

/-- Claim C7, counterexample: the claim that the timestamp gate accepts a
4-digit year beginning with 1 or 2 is false.  `TIMESTAMP_REGEX` begins with
the literal `2`, so the well-formed timestamp `1999-01-15 10:30:00.123`
produces no match and its line is folded into the previous entry's
traceback instead of starting a new entry. -/
theorem year1999_line_not_new_entry :
    tsSearch ("1999-01-15 10:30:00.123 INFO [app.py:42] Started service".data) =
      none ∧
    scrape_log ["2024-01-15 10:30:00.123 INFO [app.py:42] Started service",
        "1999-01-15 10:30:00.123 INFO [app.py:42] Started service"] =
      .ok [⟨some ⟨2024, 1, 15, 10, 30, 0, 123⟩, some ("INFO".data),
        some ("app.py".data), 42, "Started service".data,
        ["1999-01-15 10:30:00.123 INFO [app.py:42] Started service".data]⟩] := by
  exact ⟨by decide, by decide⟩

theorem tsCheck_first_char (c : Char) (rest : List Char)
    (h : tsCheck (c :: rest) = true) : c = '2' := by
  simp [tsCheck, Bool.and_eq_true, beq_iff_eq] at h
  exact h.1

/-- Claim C7 as amended: the new-entry-versus-continuation classification
is gated solely by the timestamp search, and every substring that search
can match begins with the digit 2 (the pattern is `2[0-9]{3}-...`); hence a
line whose only timestamp has a year in 1000-1999 yields no match and is
treated as a continuation line. -/
theorem tsSearch_match_starts_with_two (s m : List Char)
    (h : tsSearch s = some m) : m.head? = some '2' := by
  induction s with
  | nil => simp [tsSearch] at h
  | cons c rest ih =>
    unfold tsSearch at h
    by_cases hc : tsCheck (c :: rest) = true
    · rw [if_pos hc] at h
      have hm : m = (c :: rest).take 23 := (Option.some.inj h).symm
      subst hm
      have h23 : (23 : Nat) = 22 + 1 := rfl
      rw [h23, List.take_succ_cons]
      simp [tsCheck_first_char c rest hc]
    · rw [if_neg hc] at h
      exact ih h

/-- Witness for the amended C7 at a concrete input. -/
theorem tsSearch_match_starts_with_two_witness :
    ("2024-01-15 10:30:00.123".data).head? = some '2' := by
  exact tsSearch_match_starts_with_two
    ("2024-01-15 10:30:00.123 INFO [app.py:42] x".data)
    ("2024-01-15 10:30:00.123".data) (by decide)

/-- Claim C8: for a tag containing no `[[...]]` marker, the code performs
no lookup at all.  `get_data_from_tag` ignores the tag and returns the
entire tag-to-content mapping unchanged, so a tag absent from the mapping
yields the whole mapping rather than the mapped content or a distinct
lookup error.  This records the code's actual behaviour at the failing
input of the claim. -/
theorem tag_lookup_returns_whole_mapping :
    process_tag "missing_tag" [("known_tag", "known content")] =
      .dataResult [("known_tag", "known content")] ∧
    get_data_from_tag "missing_tag" [("known_tag", "known content")] =
      [("known_tag", "known content")] := by
  exact ⟨rfl, rfl⟩

/-- Claim C10: `delete_log` never deletes or modifies any file: it leaves
the whole filesystem map unchanged and only removes the instance's
`log_file_path` attribute. -/
theorem delete_log_frame (s : LogScraper) (fs : List (String × String)) :
    (delete_log s fs).2 = fs ∧ ((delete_log s fs).1).log_file_path = none := by
  exact ⟨rfl, rfl⟩

/-- Witness for C10 at a concrete scraper and filesystem. -/
theorem delete_log_frame_witness :
    (delete_log ⟨some "reporting.log"⟩
      [("reporting.log", "2024-01-15 10:30:00.123 INFO ok")]).2 =
      [("reporting.log", "2024-01-15 10:30:00.123 INFO ok")] ∧
    ((delete_log ⟨some "reporting.log"⟩
      [("reporting.log", "2024-01-15 10:30:00.123 INFO ok")]).1).log_file_path =
      none := by
  exact delete_log_frame ⟨some "reporting.log"⟩
    [("reporting.log", "2024-01-15 10:30:00.123 INFO ok")]
